import Mathlib

/-!
Shallow embedding of the retrieval engine of this repository
(class VectorDB in src/services/vectordb.py), an SQLite-backed catalog of
metrics, labels and query templates with an optional sqlite-vec index.

Modelling conventions, justified against the source:

* The SQLite state is a record of the four tables (`metrics`, `metric_labels`,
  `metric_templates` and the virtual table `metrics_vec`), each a list of rows
  in rowid (insertion) order, plus the AUTOINCREMENT sequence counters and the
  `use_vector_search` flag that the constructor sets exactly once.
* `id INTEGER PRIMARY KEY AUTOINCREMENT` is modelled by a counter: each insert
  into a table uses counter + 1 and bumps the counter, matching the
  sqlite_sequence behaviour (ids are never reused). `INSERT OR REPLACE` first
  deletes every row that collides on the unique key and then inserts a fresh
  row; since the id column is never supplied by the code, the fresh row always
  receives a new id and `cursor.lastrowid` returns that new id.
* Embedding vectors are lists of rationals. In `add_metric` the Python code
  tests the truthiness of the `embedding` argument, under which `None` and the
  empty list behave identically, so the argument is a plain list and the empty
  list plays the role of an absent embedding.
* `vec_distance_cosine` lives in the sqlite-vec C extension, outside this
  repository; the similarity score `1 - vec_distance_cosine(e, q)` is therefore
  a parameter `sim : List Q -> List Q -> Q` of `similarity_search`.
* Failure injection: each mutating call takes a flag for "the storage write of
  this call raised" (the `except` branch of the Python code: rollback restores
  the previously committed state) and, where the source has an inner swallowed
  `try`, a flag for that index write failing. A failing index write only skips
  the index mutation, exactly as in the source.
* `ORDER BY` with equal keys is left unspecified by SQLite. De facto the rows
  reach the sorter in table-scan (rowid) order and the sorter is stable, so the
  model uses the stable `List.insertionSort` over the scan order. `LIKE` with
  the default collation is a case-insensitive match on ASCII letters; the
  patterns built by the code are always of the shape percent-text-percent, so
  it is modelled as a case-insensitive substring test. String comparison for
  `ORDER BY metric_name` is byte-wise (BINARY collation), modelled as the
  lexicographic order on code points, which UTF-8 preserves.
-/

namespace VectorDB

/-- Row of the `metrics` table: id, unique name, optional description and
example query, optional JSON-encoded embedding. -/
structure MetricRow where
  id : Nat
  metric_name : String
  description : Option String
  example_query : Option String
  embedding : Option (List ℚ)
deriving DecidableEq

/-- Row of the `metric_labels` table. -/
structure LabelRow where
  id : Nat
  metric_id : Nat
  label_name : String
  example_values : Option String
deriving DecidableEq

/-- Row of the `metric_templates` table. -/
structure TemplateRow where
  id : Nat
  metric_id : Nat
  template : String
  template_type : String
  description : Option String
deriving DecidableEq

/-- Row of the `metrics_vec` virtual table: the rowid is the metric id the
entry mirrors. -/
structure VecRow where
  rowid : Nat
  embedding : List ℚ
deriving DecidableEq

/-- The whole SQLite database plus the availability flag of the store. -/
structure DB where
  metrics : List MetricRow
  metric_labels : List LabelRow
  metric_templates : List TemplateRow
  metrics_vec : List VecRow
  seq_metrics : Nat
  seq_labels : Nat
  seq_templates : Nat
  use_vector_search : Bool
deriving DecidableEq

/-- Freshly created store: `_create_tables` makes the four empty tables and
the constructor fixes `use_vector_search` once, depending on whether the
sqlite-vec extension loaded. -/
def DB.empty (use_vec : Bool) : DB :=
  ⟨[], [], [], [], 0, 0, 0, use_vec⟩

/-- Character comparison by code point, the order SQLite BINARY collation
induces on UTF-8 encoded text. -/
def charListLe : List Char → List Char → Bool
  | [], _ => true
  | _ :: _, [] => false
  | a :: as, b :: bs =>
    if a.toNat < b.toNat then true
    else if b.toNat < a.toNat then false
    else charListLe as bs

/-- String order used by `ORDER BY metric_name` (BINARY collation). -/
def nameLe (a b : String) : Bool :=
  charListLe a.toList b.toList

/-- Does the pattern occur literally at the head of the text. -/
def matchHere : List Char → List Char → Bool
  | [], _ => true
  | _ :: _, [] => false
  | p :: ps, h :: hs => p == h && matchHere ps hs

/-- Does the pattern occur literally anywhere in the text. -/
def findSub (pat : List Char) : List Char → Bool
  | [] => pat.isEmpty
  | h :: hs => matchHere pat (h :: hs) || findSub pat hs

/-- Modelled from the spec wording, not from the code: the containment notion
the spec asserts for text search — the query occurs in the field as a literal
case-insensitive substring. Used only to compare the spec against the LIKE
semantics the code actually gets, which additionally interprets the percent
and underscore characters of the query as wildcards. -/
def literalContains (hay pat : String) : Bool :=
  findSub (pat.toList.map Char.toLower) (hay.toList.map Char.toLower)

/-- SQLite LIKE matching with the default (ASCII case-insensitive) collation
and no ESCAPE clause: in the pattern, a percent sign matches any sequence of
characters (tried here as every suffix of the text), an underscore matches
exactly one character, and any other character matches itself up to ASCII
case. Recursion is structural on the pattern. -/
def likeMatch : List Char → List Char → Bool
  | [], hay => hay.isEmpty
  | p :: ps, hay =>
    if p == '%' then hay.tails.any (fun t => likeMatch ps t)
    else
      match hay with
      | [] => false
      | h :: hs =>
        if p == '_' then likeMatch ps hs
        else p.toLower == h.toLower && likeMatch ps hs

/-- The WHERE test of search_by_text: the code binds
`column LIKE '%' + query_text + '%'` (an f-string, no escaping), so the
column is matched against the pattern percent-query-percent with full LIKE
wildcard semantics inside the query text. -/
def likeContains (hay pat : String) : Bool :=
  likeMatch ('%' :: pat.toList ++ ['%']) hay.toList

/-- add_metric (vectordb.py lines 146-190). `INSERT OR REPLACE INTO metrics`
removes any row with the same unique `metric_name` and inserts a fresh row
whose id is the next AUTOINCREMENT value; that id is `cursor.lastrowid`. When
the embedding argument is truthy and vector search is on, the row is mirrored
into `metrics_vec` under the new id, with a failure of that index write
swallowed. A storage failure rolls the call back and re-raises. -/
def add_metric (storage_fails vec_insert_fails : Bool) (db : DB)
    (metric_name : String) (description example_query : Option String)
    (embedding : List ℚ) : Except Unit (DB × Nat) :=
  if storage_fails then .error () else
    let new_id := db.seq_metrics + 1
    let row : MetricRow :=
      ⟨new_id, metric_name, description, example_query,
        if embedding.isEmpty then none else some embedding⟩
    let db1 : DB := { db with
      metrics := db.metrics.filter (fun r => r.metric_name != metric_name) ++ [row],
      seq_metrics := new_id }
    let db2 : DB :=
      if !embedding.isEmpty && db.use_vector_search && !vec_insert_fails then
        { db1 with metrics_vec :=
          db1.metrics_vec.filter (fun v => v.rowid != new_id) ++ [⟨new_id, embedding⟩] }
      else db1
    .ok (db2, new_id)

/-- add_metric_label (lines 192-221). `INSERT OR REPLACE INTO metric_labels`
upserts on the unique pair (metric_id, label_name); the fresh row gets a new
id, returned as `cursor.lastrowid`. No existence check is made on `metric_id`:
the declared FOREIGN KEY is not enforced because the code never switches the
SQLite foreign_keys pragma on. A storage failure rolls back and re-raises. -/
def add_metric_label (storage_fails : Bool) (db : DB) (metric_id : Nat)
    (label_name : String) (example_values : Option String) :
    Except Unit (DB × Nat) :=
  if storage_fails then .error () else
    let new_id := db.seq_labels + 1
    .ok ({ db with
      metric_labels :=
        db.metric_labels.filter
          (fun l => !(l.metric_id == metric_id && l.label_name == label_name))
          ++ [⟨new_id, metric_id, label_name, example_values⟩],
      seq_labels := new_id }, new_id)

/-- add_metric_template (lines 223-253). Plain `INSERT` (append, no dedup key),
again with no enforced existence check on `metric_id`. A storage failure rolls
back and re-raises. -/
def add_metric_template (storage_fails : Bool) (db : DB) (metric_id : Nat)
    (template : String) (template_type : String) (description : Option String) :
    Except Unit (DB × Nat) :=
  if storage_fails then .error () else
    let new_id := db.seq_templates + 1
    .ok ({ db with
      metric_templates :=
        db.metric_templates ++ [⟨new_id, metric_id, template, template_type, description⟩],
      seq_templates := new_id }, new_id)

/-- delete_metric (lines 441-469). Inside one transaction: best-effort delete
from `metrics_vec` (only when vector search is on; its own failure is swallowed
and the cascade proceeds), then delete templates, labels and the metric row,
then commit and return True unconditionally. On a storage failure the whole
transaction is rolled back and the call returns False instead of raising. -/
def delete_metric (storage_fails vec_delete_fails : Bool) (db : DB)
    (metric_id : Nat) : DB × Bool :=
  if storage_fails then (db, false) else
    let db1 : DB :=
      if db.use_vector_search && !vec_delete_fails then
        { db with metrics_vec := db.metrics_vec.filter (fun v => v.rowid != metric_id) }
      else db
    ({ db1 with
      metric_templates := db1.metric_templates.filter (fun t => t.metric_id != metric_id),
      metric_labels := db1.metric_labels.filter (fun l => l.metric_id != metric_id),
      metrics := db1.metrics.filter (fun m => m.id != metric_id) }, true)

/-- get_metric_labels (lines 323-339): all label rows of one metric, in scan
order. -/
def get_metric_labels (db : DB) (metric_id : Nat) : List LabelRow :=
  db.metric_labels.filter (fun l => l.metric_id == metric_id)

/-- get_metric_templates (lines 341-358): all template rows of one metric. -/
def get_metric_templates (db : DB) (metric_id : Nat) : List TemplateRow :=
  db.metric_templates.filter (fun t => t.metric_id == metric_id)

/-- A metric hydrated with its labels and templates, the dict shape returned by
search_by_text and get_all_metrics. -/
structure HydratedMetric where
  id : Nat
  metric_name : String
  description : Option String
  example_query : Option String
  labels : List LabelRow
  templates : List TemplateRow
deriving DecidableEq

/-- The dict shape returned by get_metric_by_name, which also exposes the
stored embedding. -/
structure FullMetric where
  id : Nat
  metric_name : String
  description : Option String
  example_query : Option String
  embedding : Option (List ℚ)
  labels : List LabelRow
  templates : List TemplateRow
deriving DecidableEq

/-- The dict shape returned by similarity_search; fallback results carry no
similarity_score key, modelled as `none`. -/
structure SimResult where
  id : Nat
  metric_name : String
  description : Option String
  example_query : Option String
  similarity_score : Option ℚ
  labels : List LabelRow
  templates : List TemplateRow
deriving DecidableEq

/-- Hydration step shared by the read paths. -/
def hydrate (db : DB) (m : MetricRow) : HydratedMetric :=
  ⟨m.id, m.metric_name, m.description, m.example_query,
    get_metric_labels db m.id, get_metric_templates db m.id⟩

/-- get_metric_by_name (lines 360-383): `WHERE metric_name = ?` plus
`fetchone`, i.e. the first matching row in scan order, hydrated; `None` when
nothing matches. -/
def get_metric_by_name (db : DB) (metric_name : String) : Option FullMetric :=
  match db.metrics.find? (fun m => m.metric_name == metric_name) with
  | none => none
  | some m =>
    some ⟨m.id, m.metric_name, m.description, m.example_query, m.embedding,
      get_metric_labels db m.id, get_metric_templates db m.id⟩

/-- get_all_metrics (lines 418-439): `ORDER BY metric_name` (BINARY collation),
each row hydrated. -/
def get_all_metrics (db : DB) : List HydratedMetric :=
  (List.insertionSort (fun a b => nameLe a.metric_name b.metric_name = true)
    db.metrics).map (hydrate db)

/-- The WHERE clause of search_by_text: name or description contains the query
text, case-insensitively; a NULL description never matches. -/
def textMatches (query_text : String) (m : MetricRow) : Bool :=
  likeContains m.metric_name query_text ||
    (match m.description with
     | some d => likeContains d query_text
     | none => false)

/-- The CASE expression of search_by_text: tier 1 for a name match, tier 2 for
a description-only match, tier 3 otherwise (unreachable under the WHERE). -/
def tier (query_text : String) (m : MetricRow) : Nat :=
  if likeContains m.metric_name query_text then 1
  else if (match m.description with
           | some d => likeContains d query_text
           | none => false) then 2
  else 3

/-- search_by_text (lines 385-416): filter by the WHERE clause, order by the
CASE tier (stable over scan order), truncate to top_k, hydrate. -/
def search_by_text (db : DB) (query_text : String) (top_k : Nat) :
    List HydratedMetric :=
  ((List.insertionSort (fun a b => tier query_text a ≤ tier query_text b)
      (db.metrics.filter (textMatches query_text))).take top_k).map (hydrate db)

/-- The FROM/JOIN part of the similarity query: each metric row joined with its
`metrics_vec` entry (rowids are unique in the virtual table), paired with its
similarity score. -/
def joinedRows (sim : List ℚ → List ℚ → ℚ) (db : DB) (q : List ℚ) :
    List (MetricRow × ℚ) :=
  db.metrics.filterMap (fun m =>
    (db.metrics_vec.find? (fun v => v.rowid == m.id)).map
      (fun v => (m, sim v.embedding q)))

/-- The WHERE clause of the similarity query: score at or above the
threshold. -/
def qualifyingRows (sim : List ℚ → List ℚ → ℚ) (db : DB) (q : List ℚ)
    (threshold : ℚ) : List (MetricRow × ℚ) :=
  (joinedRows sim db q).filter (fun p => decide (threshold ≤ p.2))

/-- Result row of the vector path, hydrated, score included. -/
def mkSimResult (db : DB) (p : MetricRow × ℚ) : SimResult :=
  ⟨p.1.id, p.1.metric_name, p.1.description, p.1.example_query, some p.2,
    get_metric_labels db p.1.id, get_metric_templates db p.1.id⟩

/-- Fallback result: a get_all_metrics dict, which has no similarity_score
key. -/
def noScore (h : HydratedMetric) : SimResult :=
  ⟨h.id, h.metric_name, h.description, h.example_query, none, h.labels, h.templates⟩

/-- similarity_search (lines 255-321). When `use_vector_search` is off the call
returns `get_all_metrics()[:top_k]`; the same fallback handles any exception of
the index query (`query_fails`). Otherwise the SQL query filters scores at or
above the threshold, orders by score descending (stable over the id-ordered
scan) and truncates to top_k; each row is hydrated with labels and
templates. -/
def similarity_search (sim : List ℚ → List ℚ → ℚ) (query_fails : Bool)
    (db : DB) (query_embedding : List ℚ) (top_k : Nat) (threshold : ℚ) :
    List SimResult :=
  if !db.use_vector_search then
    ((get_all_metrics db).take top_k).map noScore
  else if query_fails then
    ((get_all_metrics db).take top_k).map noScore
  else
    ((List.insertionSort (fun a b => b.2 ≤ a.2)
        (qualifyingRows sim db query_embedding threshold)).take top_k).map
      (mkSimResult db)

/-- Mirror invariant of the claims: every rowid in the vector index is the id
of a currently existing metrics row. -/
def vecMirror (db : DB) : Prop :=
  ∀ v ∈ db.metrics_vec, ∃ m ∈ db.metrics, m.id = v.rowid

instance (db : DB) : Decidable (vecMirror db) := by
  unfold vecMirror; infer_instance

/-- Similarity function used by concrete examples: the score of a stored
embedding is its first coordinate (the query is ignored). -/
def simHead : List ℚ → List ℚ → ℚ :=
  fun e _ => e.headD 0

/-- The tier of a hydrated result, same CASE expression as `tier`; hydration
preserves name and description, so the two agree definitionally. -/
def tierH (query_text : String) (h : HydratedMetric) : Nat :=
  if likeContains h.metric_name query_text then 1
  else if (match h.description with
           | some d => likeContains d query_text
           | none => false) then 2
  else 3

instance {ε α : Type} [DecidableEq ε] [DecidableEq α] : DecidableEq (Except ε α) := fun
  | .ok a, .ok b =>
    if h : a = b then .isTrue (by rw [h]) else .isFalse (by intro hc; cases hc; exact h rfl)
  | .error a, .error b =>
    if h : a = b then .isTrue (by rw [h]) else .isFalse (by intro hc; cases hc; exact h rfl)
  | .ok _, .error _ => .isFalse (by intro hc; cases hc)
  | .error _, .ok _ => .isFalse (by intro hc; cases hc)

/-- Store after one successful `add_metric "m"` with embedding `[1]` on a fresh
vector-search-enabled store. -/
def dbAfterOneAdd : DB :=
  ⟨[⟨1, "m", none, none, some [1]⟩], [], [], [⟨1, [1]⟩], 1, 0, 0, true⟩

/-- Store after re-adding the same name: the metrics row was replaced (new id
2) while the vector index kept the stale entry for id 1. -/
def dbAfterReAdd : DB :=
  ⟨[⟨2, "m", none, none, some [1]⟩], [], [], [⟨1, [1]⟩, ⟨2, [1]⟩], 2, 0, 0, true⟩

/-- Vector-search-enabled store holding two metrics whose `simHead` scores are
2 (id 1) and 1 (id 2). -/
def dbTwoScores : DB :=
  ⟨[⟨1, "a", none, none, some [2]⟩, ⟨2, "b", none, none, some [1]⟩], [], [],
    [⟨1, [2]⟩, ⟨2, [1]⟩], 2, 0, 0, true⟩

/-- Store with vector search unavailable holding one metric whose embedding
has `simHead` score 0. -/
def dbNoVec : DB :=
  ⟨[⟨1, "m", none, none, some [0]⟩], [], [], [], 1, 0, 0, false⟩

/-- Store with two metrics whose names both contain "cpu", inserted in reverse
alphabetical order. -/
def dbTextTie : DB :=
  ⟨[⟨1, "zzz_cpu", none, none, none⟩, ⟨2, "aaa_cpu", none, none, none⟩], [], [],
    [], 2, 0, 0, false⟩

/-- Store with one metric named "cpu", used to show the wildcard effect of
LIKE on a query containing an underscore. -/
def dbWild : DB :=
  ⟨[⟨1, "cpu", none, none, none⟩], [], [], [], 1, 0, 0, false⟩

/-- Store with one metric (id 1, two labels, two templates) used to exercise
the delete cascade. -/
def dbCascade : DB :=
  ⟨[⟨1, "cpu_usage_percent", some "CPU usage percentage", none, none⟩],
    [⟨1, 1, "instance", some "server1"⟩, ⟨2, 1, "cpu_core", some "0"⟩],
    [⟨1, 1, "rate(cpu_usage_percent[5m])", "promql", none⟩,
      ⟨2, 1, "avg(cpu_usage_percent)", "promql", none⟩],
    [], 1, 2, 2, false⟩

/-- Vector-search-enabled store with three metrics whose `simHead` scores are
3 > 2 > 1, all at or above threshold 0. -/
def dbThreeScores : DB :=
  ⟨[⟨1, "a", none, none, some [3]⟩, ⟨2, "b", none, none, some [2]⟩,
      ⟨3, "c", none, none, some [1]⟩], [], [],
    [⟨1, [3]⟩, ⟨2, [2]⟩, ⟨3, [1]⟩], 3, 0, 0, true⟩

/-- Store with one metric whose name matches "cpu" only case-insensitively. -/
def dbCaseName : DB :=
  ⟨[⟨1, "CPU_Usage_Percent", some "CPU usage percentage", none, none⟩], [], [],
    [], 1, 0, 0, false⟩

/-- Inserting into a list sorted by a total transitive relation, coming from a
position before every current element, keeps the list sorted and stable:
pairwise, the left element is related to the right one, and whenever the two
are related both ways (a tie of the sort key) the left one has the smaller
index. This is the behaviour of the stable sorter behind ORDER BY. -/
theorem pairwise_orderedInsert {α : Type} (r : α → α → Prop) [DecidableRel r]
    (idx : α → Nat)
    (htot : ∀ a b, r a b ∨ r b a) (htrans : ∀ {a b c}, r a b → r b c → r a c)
    (x : α) (l : List α)
    (hp : l.Pairwise (fun a b => r a b ∧ (r b a → idx a < idx b)))
    (hx : ∀ y ∈ l, idx x < idx y) :
    (List.orderedInsert r x l).Pairwise
      (fun a b => r a b ∧ (r b a → idx a < idx b)) := by
  induction l with
  | nil => simp [List.orderedInsert]
  | cons y ys ih =>
    rcases List.pairwise_cons.1 hp with ⟨hy, hys⟩
    by_cases h : r x y
    · rw [List.orderedInsert, if_pos h]
      refine List.pairwise_cons.2 ⟨?_, hp⟩
      intro z hz
      rcases List.mem_cons.1 hz with rfl | hz'
      · exact ⟨h, fun _ => hx z (List.mem_cons_self _ _)⟩
      · exact ⟨htrans h (hy z hz').1, fun _ => hx z (List.mem_cons_of_mem _ hz')⟩
    · rw [List.orderedInsert, if_neg h]
      refine List.pairwise_cons.2
        ⟨?_, ih hys (fun z hz => hx z (List.mem_cons_of_mem _ hz))⟩
      intro z hz
      have hz' : z = x ∨ z ∈ ys := by
        have hm := (List.perm_orderedInsert r x ys).mem_iff.1 hz
        simpa using hm
      rcases hz' with rfl | hz'
      · exact ⟨(htot z y).resolve_left h, fun hxy => absurd hxy h⟩
      · exact hy z hz'

/-- Stability of the insertion sort modelling ORDER BY: on input listed in
strictly increasing index (scan) order, the output is pairwise related by the
sort relation, with ties resolved by the smaller index. -/
theorem pairwise_insertionSort_stable {α : Type} (r : α → α → Prop)
    [DecidableRel r] (idx : α → Nat)
    (htot : ∀ a b, r a b ∨ r b a) (htrans : ∀ {a b c}, r a b → r b c → r a c)
    (l : List α) (hl : l.Pairwise (fun a b => idx a < idx b)) :
    (List.insertionSort r l).Pairwise
      (fun a b => r a b ∧ (r b a → idx a < idx b)) := by
  induction l with
  | nil => simp [List.insertionSort]
  | cons x xs ih =>
    rcases List.pairwise_cons.1 hl with ⟨hx, hxs⟩
    rw [List.insertionSort]
    refine pairwise_orderedInsert r idx htot htrans x _ (ih hxs) ?_
    intro y hy
    exact hx y ((List.perm_insertionSort r xs).mem_iff.1 hy)

/-- Shape of every successful `add_metric`: the returned id is the next
AUTOINCREMENT value, the sequence is bumped, rows colliding on the unique name
are replaced by the fresh row, and the vector index only ever grows by the new
id (or stays unchanged). -/
theorem add_metric_ok_shape (vf : Bool) (db : DB) (n : String)
    (d e : Option String) (emb : List ℚ) :
    ∃ db', add_metric false vf db n d e emb = .ok (db', db.seq_metrics + 1) ∧
      db'.seq_metrics = db.seq_metrics + 1 ∧
      db'.metrics = db.metrics.filter (fun r => r.metric_name != n) ++
        [⟨db.seq_metrics + 1, n, d, e, if emb.isEmpty then none else some emb⟩] ∧
      db'.use_vector_search = db.use_vector_search ∧
      (db'.metrics_vec = db.metrics_vec ∨
        db'.metrics_vec =
          db.metrics_vec.filter (fun v => v.rowid != db.seq_metrics + 1) ++
            [⟨db.seq_metrics + 1, emb⟩]) := by
  refine ⟨_, rfl, ?_, ?_, ?_, ?_⟩ <;>
    cases hc : (!emb.isEmpty && db.use_vector_search && !vf) <;>
      simp [add_metric, hc]

/-- Claim C1 (amended): re-running `add_metric` with identical arguments
leaves exactly one metrics row with that name, but the two calls return
different ids: INSERT OR REPLACE deletes the old row and inserts a fresh row
with the next AUTOINCREMENT id. -/
theorem c1_upsert_fresh_id (db : DB) (n : String) (d e : Option String)
    (emb : List ℚ) :
    ∃ db1 db2,
      add_metric false false db n d e emb = .ok (db1, db.seq_metrics + 1) ∧
      add_metric false false db1 n d e emb = .ok (db2, db.seq_metrics + 2) ∧
      db.seq_metrics + 1 ≠ db.seq_metrics + 2 ∧
      db2.metrics.countP (fun r => r.metric_name == n) = 1 := by
  obtain ⟨db1, h1, hseq1, hm1, _, _⟩ := add_metric_ok_shape false db n d e emb
  obtain ⟨db2, h2, hseq2, hm2, _, _⟩ := add_metric_ok_shape false db1 n d e emb
  rw [hseq1] at h2 hm2
  refine ⟨db1, db2, h1, h2, by omega, ?_⟩
  rw [hm2, List.countP_append]
  have hz : (db1.metrics.filter (fun r => r.metric_name != n)).countP
      (fun r => r.metric_name == n) = 0 := by
    rw [List.countP_eq_zero]
    intro a ha
    rcases List.mem_filter.1 ha with ⟨_, hne⟩
    simp only [bne_iff_ne, ne_eq] at hne
    simp [hne]
  rw [hz]
  simp [List.countP_cons]

/-- Claim C1 counterexample: on a fresh store, adding metric "m" twice with
identical arguments returns id 1 and then id 2 (not the same id), though
exactly one row named "m" remains. -/
theorem c1_counterexample :
    add_metric false false (DB.empty true) "m" none none [1] =
      .ok (dbAfterOneAdd, 1) ∧
    add_metric false false dbAfterOneAdd "m" none none [1] =
      .ok (dbAfterReAdd, 2) ∧
    (1 : Nat) ≠ 2 ∧
    dbAfterReAdd.metrics.countP (fun r => r.metric_name == "m") = 1 := by
  decide

/-- Claim C4 (amended): `delete_metric` returns True whenever its transaction
commits, whether or not a row with that id existed; it returns False exactly
when the storage write fails. -/
theorem c4_delete_returns_commit (sf vf : Bool) (db : DB) (mid : Nat) :
    (delete_metric sf vf db mid).2 = !sf := by
  cases sf <;> simp [delete_metric]

/-- Claim C4 counterexample: deleting the nonexistent id 5 from an empty store
returns True, not False. -/
theorem c4_counterexample :
    delete_metric false false (DB.empty true) 5 = (DB.empty true, true) := by
  decide

/-- Claim C5 (amended): on a storage failure, `add_metric`,
`add_metric_label` and `add_metric_template` roll back and re-raise (no state
is produced), while `delete_metric` rolls back and returns False instead of
re-raising: the committed state is returned unchanged together with a normal
Boolean result. -/
theorem c5_rollback_reraise (vf : Bool) (db : DB) (n : String)
    (d e : Option String) (emb : List ℚ) (mid : Nat) (ln : String)
    (ev : Option String) (tpl tt : String) (td : Option String) :
    add_metric true vf db n d e emb = .error () ∧
    add_metric_label true db mid ln ev = .error () ∧
    add_metric_template true db mid tpl tt td = .error () ∧
    delete_metric true vf db mid = (db, false) :=
  ⟨rfl, rfl, rfl, rfl⟩

/-- Claim C5 counterexample: a failing `delete_metric` on a store holding
metric id 1 returns the normal value False with the state unchanged; it does
not re-raise a storage error, contradicting the claim for this mutating
operation. -/
theorem c5_counterexample :
    delete_metric true false dbNoVec 1 = (dbNoVec, false) := by
  decide

/-- Claim C10: `use_vector_search` is fixed at construction. Every mutating
operation returns a state with the flag unchanged, for every combination of
storage and index-write failures, and the read paths (similarity_search,
search_by_text, get_all_metrics, get_metric_by_name) are pure functions of the
state, so no call ever disables or re-enables vector search. -/
theorem c10_flag_stable (sf vf vdf : Bool) (db : DB) (n : String)
    (d e : Option String) (emb : List ℚ) (mid : Nat) (ln : String)
    (ev : Option String) (tpl tt : String) (td : Option String) :
    (match add_metric sf vf db n d e emb with
      | .ok (db2, _) => db2.use_vector_search
      | .error _ => db.use_vector_search) = db.use_vector_search ∧
    (match add_metric_label sf db mid ln ev with
      | .ok (db2, _) => db2.use_vector_search
      | .error _ => db.use_vector_search) = db.use_vector_search ∧
    (match add_metric_template sf db mid tpl tt td with
      | .ok (db2, _) => db2.use_vector_search
      | .error _ => db.use_vector_search) = db.use_vector_search ∧
    (delete_metric sf vdf db mid).1.use_vector_search = db.use_vector_search := by
  refine ⟨?_, ?_, ?_, ?_⟩ <;>
    cases sf <;>
      simp [add_metric, add_metric_label, add_metric_template, delete_metric] <;>
        split <;> rfl

/-- Claim C6 (amended): the mirror invariant — every rowid of `metrics_vec` is
the id of an existing metrics row — holds of a fresh store, is preserved by
`add_metric` whenever the name is not already present (for any storage or
index-write failure), and is preserved by `delete_metric` on a
vector-search-enabled store whenever the index delete itself does not fail.
Re-adding an existing name breaks it: the id of the replaced row stays behind
in the index (see the counterexample). -/
theorem c6_mirror_invariant :
    (∀ b : Bool, vecMirror (DB.empty b)) ∧
    (∀ (sf vf : Bool) (db : DB) (n : String) (d e : Option String)
        (emb : List ℚ) (db' : DB) (i : Nat),
      vecMirror db →
      db.metrics.all (fun m => m.metric_name != n) = true →
      add_metric sf vf db n d e emb = .ok (db', i) → vecMirror db') ∧
    (∀ (sf : Bool) (db : DB) (mid : Nat),
      vecMirror db → db.use_vector_search = true →
      vecMirror (delete_metric sf false db mid).1) := by
  refine ⟨?_, ?_, ?_⟩
  · intro b v hv
    simp [DB.empty] at hv
  · intro sf vf db n d e emb db' i hInv hFresh hOk
    cases sf with
    | true => simp [add_metric] at hOk
    | false =>
      obtain ⟨db'', hEq, _, hMet, _, hVec⟩ := add_metric_ok_shape vf db n d e emb
      rw [hOk] at hEq
      injection hEq with hpair
      injection hpair with h1 h2
      subst h1
      have hKeep : ∀ m ∈ db.metrics, m ∈ db'.metrics := by
        intro m hm
        rw [hMet]
        exact List.mem_append_left _
          (List.mem_filter.2 ⟨hm, List.all_eq_true.1 hFresh m hm⟩)
      intro v hv
      rcases hVec with hVec | hVec
      · rw [hVec] at hv
        obtain ⟨m, hm, hid⟩ := hInv v hv
        exact ⟨m, hKeep m hm, hid⟩
      · rw [hVec] at hv
        rcases List.mem_append.1 hv with hv' | hv'
        · obtain ⟨m, hm, hid⟩ := hInv v (List.mem_filter.1 hv').1
          exact ⟨m, hKeep m hm, hid⟩
        · have hveq : v = ⟨db.seq_metrics + 1, emb⟩ := by simpa using hv'
          refine ⟨⟨db.seq_metrics + 1, n, d, e,
            if emb.isEmpty then none else some emb⟩, ?_, by rw [hveq]⟩
          rw [hMet]
          exact List.mem_append_right _ (by simp)
  · intro sf db mid hInv hflag
    cases sf with
    | true => simpa [delete_metric] using hInv
    | false =>
      intro v hv
      have hv' : v ∈ db.metrics_vec.filter (fun v => v.rowid != mid) := by
        simpa [delete_metric, hflag] using hv
      rcases List.mem_filter.1 hv' with ⟨hmem, hne⟩
      obtain ⟨m, hm, hid⟩ := hInv v hmem
      refine ⟨m, ?_, hid⟩
      have hMm : (delete_metric false false db mid).1.metrics
          = db.metrics.filter (fun m => m.id != mid) := by
        simp [delete_metric, hflag]
      rw [hMm]
      refine List.mem_filter.2 ⟨hm, ?_⟩
      rw [hid]
      simpa using hne

/-- Claim C6 counterexample: after adding "m" (id 1, indexed) and re-adding
the same name (the row is replaced and gets id 2), the vector index still
holds rowid 1 although no metrics row with id 1 exists. -/
theorem c6_counterexample :
    add_metric false false (DB.empty true) "m" none none [1] =
      .ok (dbAfterOneAdd, 1) ∧
    add_metric false false dbAfterOneAdd "m" none none [1] =
      .ok (dbAfterReAdd, 2) ∧
    dbAfterReAdd.metrics_vec.any (fun v => v.rowid == 1) = true ∧
    dbAfterReAdd.metrics.all (fun m => m.id != 1) = true := by
  decide

/-- Witness for C6: the preservation clause applied to the concrete first add
on a fresh store yields the mirror invariant of the resulting store. -/
theorem c6_witness : vecMirror dbAfterOneAdd :=
  c6_mirror_invariant.2.1 false false (DB.empty true) "m" none none [1]
    dbAfterOneAdd 1 (by decide) (by decide) (by decide)

/-- Claim C8 (confirmed): a committing `delete_metric` removes every label and
template row referencing the id (whether or not the index delete failed), the
metric row itself, and a subsequent lookup by the name of the metric returns
None. The name hypothesis says every row carrying that name has the deleted
id, which the unique-name constraint of the metrics table guarantees. -/
theorem c8_cascade (vdf : Bool) (db : DB) (mid : Nat) (nm : String)
    (hnm : ∀ m ∈ db.metrics, m.metric_name = nm → m.id = mid) :
    get_metric_labels (delete_metric false vdf db mid).1 mid = [] ∧
    get_metric_templates (delete_metric false vdf db mid).1 mid = [] ∧
    (∀ l ∈ (delete_metric false vdf db mid).1.metric_labels, l.metric_id ≠ mid) ∧
    (∀ t ∈ (delete_metric false vdf db mid).1.metric_templates, t.metric_id ≠ mid) ∧
    (∀ m ∈ (delete_metric false vdf db mid).1.metrics, m.id ≠ mid) ∧
    get_metric_by_name (delete_metric false vdf db mid).1 nm = none := by
  have hL : (delete_metric false vdf db mid).1.metric_labels
      = db.metric_labels.filter (fun l => l.metric_id != mid) := by
    cases hc : (db.use_vector_search && !vdf) <;> simp [delete_metric, hc]
  have hT : (delete_metric false vdf db mid).1.metric_templates
      = db.metric_templates.filter (fun t => t.metric_id != mid) := by
    cases hc : (db.use_vector_search && !vdf) <;> simp [delete_metric, hc]
  have hM : (delete_metric false vdf db mid).1.metrics
      = db.metrics.filter (fun m => m.id != mid) := by
    cases hc : (db.use_vector_search && !vdf) <;> simp [delete_metric, hc]
  refine ⟨?_, ?_, ?_, ?_, ?_, ?_⟩
  · rw [get_metric_labels, hL, List.filter_eq_nil_iff]
    intro l hl
    rcases List.mem_filter.1 hl with ⟨_, hne⟩
    simpa using hne
  · rw [get_metric_templates, hT, List.filter_eq_nil_iff]
    intro t ht
    rcases List.mem_filter.1 ht with ⟨_, hne⟩
    simpa using hne
  · intro l hl
    rw [hL] at hl
    have := (List.mem_filter.1 hl).2
    simpa using this
  · intro t ht
    rw [hT] at ht
    have := (List.mem_filter.1 ht).2
    simpa using this
  · intro m hm
    rw [hM] at hm
    have := (List.mem_filter.1 hm).2
    simpa using this
  · rw [get_metric_by_name]
    have hfind : (delete_metric false vdf db mid).1.metrics.find?
        (fun m => m.metric_name == nm) = none := by
      rw [List.find?_eq_none]
      intro m hm
      rw [hM] at hm
      rcases List.mem_filter.1 hm with ⟨hmem, hne⟩
      intro hbeq
      have hname : m.metric_name = nm := by simpa using hbeq
      have : m.id = mid := hnm m hmem hname
      simp [this] at hne
    rw [hfind]

/-- Witness for C8: deleting metric id 1 from the concrete two-label,
two-template store removes every owned row and makes the lookup by name
return None. -/
theorem c8_witness :
    get_metric_labels (delete_metric false false dbCascade 1).1 1 = [] ∧
    get_metric_templates (delete_metric false false dbCascade 1).1 1 = [] ∧
    (∀ l ∈ (delete_metric false false dbCascade 1).1.metric_labels,
      l.metric_id ≠ 1) ∧
    (∀ t ∈ (delete_metric false false dbCascade 1).1.metric_templates,
      t.metric_id ≠ 1) ∧
    (∀ m ∈ (delete_metric false false dbCascade 1).1.metrics, m.id ≠ 1) ∧
    get_metric_by_name (delete_metric false false dbCascade 1).1
      "cpu_usage_percent" = none :=
  c8_cascade false dbCascade 1 "cpu_usage_percent" (by decide)

/-- Claim C9 (amended): the store makes no existence check on `metric_id`.
Even when no metrics row with that id exists, `add_metric_label` and
`add_metric_template` succeed, insert the orphan row and return its fresh id
instead of raising a not-found error; referential integrity is left to the
caller. -/
theorem c9_orphan_inserts (db : DB) (mid : Nat) (ln : String)
    (ev : Option String) (tpl tt : String) (td : Option String)
    (_hmid : ∀ m ∈ db.metrics, m.id ≠ mid) :
    (∃ db', add_metric_label false db mid ln ev = .ok (db', db.seq_labels + 1) ∧
      ∃ l ∈ db'.metric_labels, l.metric_id = mid ∧ l.label_name = ln) ∧
    (∃ db', add_metric_template false db mid tpl tt td =
        .ok (db', db.seq_templates + 1) ∧
      ∃ t ∈ db'.metric_templates, t.metric_id = mid ∧ t.template = tpl) := by
  refine ⟨⟨_, rfl, ?_⟩, ⟨_, rfl, ?_⟩⟩
  · exact ⟨⟨db.seq_labels + 1, mid, ln, ev⟩,
      List.mem_append_right _ (by simp), rfl, rfl⟩
  · exact ⟨⟨db.seq_templates + 1, mid, tpl, tt, td⟩,
      List.mem_append_right _ (by simp), rfl, rfl⟩

/-- Claim C9 counterexample: on an empty store (so metric id 7 does not
exist), adding a label and a template for id 7 succeeds and inserts orphan
rows; no error is raised. -/
theorem c9_counterexample :
    add_metric_label false (DB.empty true) 7 "l" none =
      .ok (⟨[], [⟨1, 7, "l", none⟩], [], [], 0, 1, 0, true⟩, 1) ∧
    add_metric_template false (DB.empty true) 7 "t" "promql" none =
      .ok (⟨[], [], [⟨1, 7, "t", "promql", none⟩], [], 0, 0, 1, true⟩, 1) := by
  decide

/-- Witness for C9: the theorem applied to the empty store and the
nonexistent metric id 7. -/
theorem c9_witness :
    (∃ db', add_metric_label false (DB.empty true) 7 "l" none = .ok (db', 1) ∧
      ∃ l ∈ db'.metric_labels, l.metric_id = 7 ∧ l.label_name = "l") ∧
    (∃ db', add_metric_template false (DB.empty true) 7 "t" "promql" none =
        .ok (db', 1) ∧
      ∃ t ∈ db'.metric_templates, t.metric_id = 7 ∧ t.template = "t") :=
  c9_orphan_inserts (DB.empty true) 7 "l" none "t" "promql" none (by decide)

/-- Claim C3 (amended): when vector search is on and the index query succeeds,
every returned metric carries a score at or above the threshold, so a metric
strictly below it never appears. When vector search is off, or the index query
fails, the fallback instead returns all stored metrics truncated to top_k,
with no similarity score at all and no regard for the threshold. -/
theorem c3_threshold_exclusion (sim : List ℚ → List ℚ → ℚ) (qf : Bool)
    (db : DB) (q : List ℚ) (k : Nat) (t : ℚ) :
    (db.use_vector_search = true →
      ∀ x ∈ similarity_search sim false db q k t,
        ∃ s, x.similarity_score = some s ∧ t ≤ s) ∧
    ((db.use_vector_search = false ∨ qf = true) →
      (similarity_search sim qf db q k t).length = min k db.metrics.length ∧
      ∀ x ∈ similarity_search sim qf db q k t, x.similarity_score = none) := by
  constructor
  · intro hv x hx
    have hx' : x ∈ ((List.insertionSort (fun a b => b.2 ≤ a.2)
        (qualifyingRows sim db q t)).take k).map (mkSimResult db) := by
      simpa [similarity_search, hv] using hx
    rcases List.mem_map.1 hx' with ⟨p, hp, rfl⟩
    have hp1 : p ∈ List.insertionSort (fun a b => b.2 ≤ a.2)
        (qualifyingRows sim db q t) := List.take_subset _ _ hp
    have hp2 : p ∈ qualifyingRows sim db q t :=
      (List.perm_insertionSort _ _).mem_iff.1 hp1
    rcases List.mem_filter.1 hp2 with ⟨_, ht⟩
    exact ⟨p.2, rfl, by simpa using ht⟩
  · intro hcase
    have hfb : similarity_search sim qf db q k t =
        ((get_all_metrics db).take k).map noScore := by
      rcases hcase with hv | hq
      · simp [similarity_search, hv]
      · cases hv : db.use_vector_search <;> simp [similarity_search, hv, hq]
    have hlen : (get_all_metrics db).length = db.metrics.length := by
      rw [get_all_metrics, List.length_map]
      exact (List.perm_insertionSort _ _).length_eq
    constructor
    · rw [hfb, List.length_map, List.length_take, hlen, inf_eq_min]
    · intro x hx
      rw [hfb] at hx
      rcases List.mem_map.1 hx with ⟨h, _, rfl⟩
      rfl

/-- Claim C3 counterexample: with vector search unavailable, the single stored
metric (id 1, embedding of score 0) appears in the similarity_search result
although its similarity 0 is strictly below the threshold 1. -/
theorem c3_counterexample :
    (similarity_search simHead false dbNoVec [0] 5 1).map (fun r => r.id) =
      [1] ∧
    simHead [0] [0] < 1 := by
  decide

/-- Witness for C3: the fallback clause applied to the concrete
vector-search-disabled store. -/
theorem c3_witness :
    (similarity_search simHead false dbNoVec [0] 5 1).length =
        min 5 dbNoVec.metrics.length ∧
    ∀ x ∈ similarity_search simHead false dbNoVec [0] 5 1,
      x.similarity_score = none :=
  (c3_threshold_exclusion simHead false dbNoVec [0] 5 1).2 (Or.inl (by decide))

/-- Helper: the join of the similarity query lists rows in strictly increasing
metric-id order whenever the metrics table does. -/
theorem joinedRows_pairwise_id (sim : List ℚ → List ℚ → ℚ) (db : DB)
    (q : List ℚ) (hids : db.metrics.Pairwise (fun a b => a.id < b.id)) :
    (joinedRows sim db q).Pairwise (fun a b => a.1.id < b.1.id) := by
  rw [joinedRows, List.pairwise_filterMap]
  refine hids.imp ?_
  intro a b hab x hx y hy
  cases ho : db.metrics_vec.find? (fun v => v.rowid == a.id) with
  | none => rw [ho] at hx; simp at hx
  | some v =>
    rw [ho] at hx
    simp at hx
    cases ho' : db.metrics_vec.find? (fun v => v.rowid == b.id) with
    | none => rw [ho'] at hy; simp at hy
    | some w =>
      rw [ho'] at hy
      simp at hy
      subst hx
      subst hy
      exact hab

/-- Claim C7 (amended): search_by_text returns at most top_k metrics, each of
whose name or description matches the LIKE pattern percent-query-percent
case-insensitively (percent and underscore inside the query act as wildcards,
so this is not literal containment); the results are ranked with every name
match before every description-only match, and within a tier they appear in
table (ascending id) order — not sorted by name. -/
theorem c7_text_ranking (db : DB) (qt : String) (k : Nat)
    (hids : db.metrics.Pairwise (fun a b => a.id < b.id)) :
    (search_by_text db qt k).length =
        min k (db.metrics.countP (textMatches qt)) ∧
    (∀ x ∈ search_by_text db qt k,
      likeContains x.metric_name qt = true ∨
        ∃ dsc, x.description = some dsc ∧ likeContains dsc qt = true) ∧
    (search_by_text db qt k).Pairwise
      (fun a b => tierH qt a < tierH qt b ∨
        (tierH qt a = tierH qt b ∧ a.id < b.id)) := by
  refine ⟨?_, ?_, ?_⟩
  · rw [search_by_text, List.length_map, List.length_take,
      (List.perm_insertionSort _ _).length_eq, List.countP_eq_length_filter,
      inf_eq_min]
  · intro x hx
    rcases List.mem_map.1 hx with ⟨m, hm, rfl⟩
    have hm1 : m ∈ db.metrics.filter (textMatches qt) :=
      (List.perm_insertionSort _ _).mem_iff.1 (List.take_subset _ _ hm)
    have hmt : textMatches qt m = true := (List.mem_filter.1 hm1).2
    rw [textMatches, Bool.or_eq_true] at hmt
    rcases hmt with hname | hdesc
    · exact Or.inl hname
    · cases hd : m.description with
      | none => rw [hd] at hdesc; simp at hdesc
      | some dsc =>
        rw [hd] at hdesc
        exact Or.inr ⟨dsc, hd, hdesc⟩
  · have hstable := pairwise_insertionSort_stable
      (fun a b : MetricRow => tier qt a ≤ tier qt b) (fun m => m.id)
      (fun a b => le_total _ _) (fun hab hbc => le_trans hab hbc)
      (db.metrics.filter (textMatches qt)) (hids.filter _)
    rw [search_by_text]
    refine List.pairwise_map.2 ?_
    refine (List.Pairwise.sublist (List.take_sublist _ _) hstable).imp ?_
    intro a b hab
    rcases hab with ⟨hle, himp⟩
    rcases lt_or_eq_of_le hle with hlt | heq
    · exact Or.inl hlt
    · exact Or.inr ⟨heq, himp (le_of_eq heq.symm)⟩

/-- Claim C7 counterexample, falsifying two parts of the claim. Ordering: two
metrics whose names both contain "cpu", inserted in reverse alphabetical
order, come back in table (id) order "zzz_cpu", "aaa_cpu" — not in the name
order of the catalog listing. Containment: the query "c_u" returns the metric
named "cpu" (the underscore is a LIKE wildcard) although "cpu" does not
contain the query text. -/
theorem c7_counterexample :
    (search_by_text dbTextTie "cpu" 5).map (fun r => r.metric_name) =
      ["zzz_cpu", "aaa_cpu"] ∧
    ¬ ((search_by_text dbTextTie "cpu" 5).map (fun r => r.metric_name)).Pairwise
        (fun a b => nameLe a b = true) ∧
    (search_by_text dbWild "c_u" 5).map (fun r => r.metric_name) = ["cpu"] ∧
    literalContains "cpu" "c_u" = false := by
  decide

/-- Witness for C7: the theorem applied to the store whose single metric
CPU_Usage_Percent matches the lower-case query "cpu". -/
theorem c7_witness :
    (search_by_text dbCaseName "cpu" 5).length =
        min 5 (dbCaseName.metrics.countP (textMatches "cpu")) ∧
    (∀ x ∈ search_by_text dbCaseName "cpu" 5,
      likeContains x.metric_name "cpu" = true ∨
        ∃ dsc, x.description = some dsc ∧ likeContains dsc "cpu" = true) ∧
    (search_by_text dbCaseName "cpu" 5).Pairwise
      (fun a b => tierH "cpu" a < tierH "cpu" b ∨
        (tierH "cpu" a = tierH "cpu" b ∧ a.id < b.id)) :=
  c7_text_ranking dbCaseName "cpu" 5 (by decide)

/-- Claim C2 (amended): on the vector path, similarity_search returns the
top_k highest-scoring metrics among those whose similarity is at or above the
threshold — it returns min(top_k, qualifying) results, each with a score at or
above the threshold, ordered by descending score with ties broken by the lower
metric id, and every qualifying row left out scores no higher than every
returned one. In particular, three stored embeddings with strictly descending
scores at or above the threshold come back in exactly that order under
top_k = 3. -/
theorem c2_similarity_ranking (sim : List ℚ → List ℚ → ℚ) (db : DB)
    (q : List ℚ) (k : Nat) (t : ℚ)
    (hv : db.use_vector_search = true)
    (hids : db.metrics.Pairwise (fun a b => a.id < b.id)) :
    (similarity_search sim false db q k t).length =
        min k (qualifyingRows sim db q t).length ∧
    (∀ x ∈ similarity_search sim false db q k t,
      ∃ s, x.similarity_score = some s ∧ t ≤ s) ∧
    (similarity_search sim false db q k t).Pairwise
      (fun a b => b.similarity_score.getD 0 < a.similarity_score.getD 0 ∨
        (a.similarity_score = b.similarity_score ∧ a.id < b.id)) ∧
    (∀ p ∈ qualifyingRows sim db q t,
      (∀ x ∈ similarity_search sim false db q k t, x.id ≠ p.1.id) →
      ∀ x ∈ similarity_search sim false db q k t,
        p.2 ≤ x.similarity_score.getD 0) ∧
    (∀ m1 m2 m3 s1 s2 s3,
      qualifyingRows sim db q t = [(m1, s1), (m2, s2), (m3, s3)] →
      s2 < s1 → s3 < s2 →
      (similarity_search sim false db q 3 t).map (fun r => r.id) =
        [m1.id, m2.id, m3.id]) := by
  have hunf : similarity_search sim false db q k t =
      ((List.insertionSort (fun a b => b.2 ≤ a.2)
        (qualifyingRows sim db q t)).take k).map (mkSimResult db) := by
    simp [similarity_search, hv]
  have hQ : (qualifyingRows sim db q t).Pairwise
      (fun a b => a.1.id < b.1.id) :=
    (joinedRows_pairwise_id sim db q hids).filter _
  have hstable := pairwise_insertionSort_stable
    (fun a b : MetricRow × ℚ => b.2 ≤ a.2) (fun p => p.1.id)
    (fun a b => le_total b.2 a.2) (fun hab hbc => le_trans hbc hab)
    (qualifyingRows sim db q t) hQ
  refine ⟨?_, ?_, ?_, ?_, ?_⟩
  · rw [hunf, List.length_map, List.length_take,
      (List.perm_insertionSort _ _).length_eq, inf_eq_min]
  · intro x hx
    rw [hunf] at hx
    rcases List.mem_map.1 hx with ⟨p, hp, rfl⟩
    have hp2 : p ∈ qualifyingRows sim db q t :=
      (List.perm_insertionSort _ _).mem_iff.1 (List.take_subset _ _ hp)
    rcases List.mem_filter.1 hp2 with ⟨_, ht⟩
    exact ⟨p.2, rfl, by simpa using ht⟩
  · rw [hunf]
    refine List.pairwise_map.2 ?_
    refine (List.Pairwise.sublist (List.take_sublist _ _) hstable).imp ?_
    intro a b hab
    rcases hab with ⟨hle, himp⟩
    rcases lt_or_eq_of_le hle with hlt | heq
    · exact Or.inl hlt
    · exact Or.inr ⟨congrArg some heq.symm, himp (le_of_eq heq.symm)⟩
  · intro p hpL hnot x hx
    have hpS : p ∈ List.insertionSort (fun a b : MetricRow × ℚ => b.2 ≤ a.2)
        (qualifyingRows sim db q t) :=
      (List.perm_insertionSort _ _).mem_iff.2 hpL
    have hsplit := List.take_append_drop k
      (List.insertionSort (fun a b : MetricRow × ℚ => b.2 ≤ a.2)
        (qualifyingRows sim db q t))
    have hpd : p ∈ (List.insertionSort (fun a b : MetricRow × ℚ => b.2 ≤ a.2)
        (qualifyingRows sim db q t)).drop k := by
      rcases List.mem_append.1 (by rw [hsplit]; exact hpS) with hptake | hpdrop
      · have hmem : mkSimResult db p ∈ similarity_search sim false db q k t := by
          rw [hunf]
          exact List.mem_map_of_mem _ hptake
        exact ((hnot _ hmem) rfl).elim
      · exact hpdrop
    have hcross := (List.pairwise_append.1
      (by rw [hsplit]; exact hstable)).2.2
    rw [hunf] at hx
    rcases List.mem_map.1 hx with ⟨p', hp', rfl⟩
    exact (hcross p' hp' p hpd).1
  · intro m1 m2 m3 s1 s2 s3 hEq h12 h23
    have hunf3 : similarity_search sim false db q 3 t =
        ((List.insertionSort (fun a b => b.2 ≤ a.2)
          (qualifyingRows sim db q t)).take 3).map (mkSimResult db) := by
      simp [similarity_search, hv]
    rw [hunf3, hEq]
    have hsort : List.insertionSort (fun a b : MetricRow × ℚ => b.2 ≤ a.2)
        [(m1, s1), (m2, s2), (m3, s3)] = [(m1, s1), (m2, s2), (m3, s3)] := by
      simp [List.insertionSort, List.orderedInsert, h12.le, h23.le]
    rw [hsort]
    simp [mkSimResult]

/-- Claim C2 counterexample: the store holds two metrics whose similarities
(2 and 1) are both at or above the threshold 0, yet with top_k = 1 the result
contains only metric 1 — the result is not "exactly the metrics at or above
the threshold". -/
theorem c2_counterexample :
    (similarity_search simHead false dbTwoScores [0] 1 0).map (fun r => r.id) =
      [1] ∧
    (0 : ℚ) ≤ simHead [1] [0] ∧
    dbTwoScores.metrics.any (fun m => m.id == 2) = true := by
  decide

/-- Witness for C2: the theorem applied to the concrete three-metric store
with scores 3 > 2 > 1 and threshold 0. -/
theorem c2_witness :
    (similarity_search simHead false dbThreeScores [] 3 0).length =
        min 3 (qualifyingRows simHead dbThreeScores [] 0).length ∧
    (∀ x ∈ similarity_search simHead false dbThreeScores [] 3 0,
      ∃ s, x.similarity_score = some s ∧ (0 : ℚ) ≤ s) ∧
    (similarity_search simHead false dbThreeScores [] 3 0).Pairwise
      (fun a b => b.similarity_score.getD 0 < a.similarity_score.getD 0 ∨
        (a.similarity_score = b.similarity_score ∧ a.id < b.id)) ∧
    (∀ p ∈ qualifyingRows simHead dbThreeScores [] 0,
      (∀ x ∈ similarity_search simHead false dbThreeScores [] 3 0,
        x.id ≠ p.1.id) →
      ∀ x ∈ similarity_search simHead false dbThreeScores [] 3 0,
        p.2 ≤ x.similarity_score.getD 0) ∧
    (∀ m1 m2 m3 s1 s2 s3,
      qualifyingRows simHead dbThreeScores [] 0 = [(m1, s1), (m2, s2), (m3, s3)] →
      s2 < s1 → s3 < s2 →
      (similarity_search simHead false dbThreeScores [] 3 0).map (fun r => r.id) =
        [m1.id, m2.id, m3.id]) :=
  c2_similarity_ranking simHead dbThreeScores [] 3 0 (by decide) (by decide)

end VectorDB
